import Mathlib

/-!
Shallow embedding of the NuN Central Dashboard Node Agent front-end
(src/index.tsx): the four mock API fixtures, the function-call dispatch
loop, the confirmation-modal transitions and the submit handler's UI
state, translated from the TypeScript source.  DOM rendering details are
modelled as the data they carry: the chat history is a list of messages,
the modal, the overlay, the prompt input, the submit button and the
loading spinner are fields of one page-state record.
-/

namespace NuN

/-- The css class given to appendMessage in the source:
user-message or model-message. -/
inductive MsgRole where
  | user
  | model
  deriving DecidableEq, Repr

/-- One entry of the chat-history pane (appendMessage appends one). -/
structure ChatMsg where
  content : String
  role : MsgRole
  deriving DecidableEq, Repr

/-- The record stored in the actionToConfirm slot by startDeployment:
type DEPLOYMENT plus the packageId and nodeId parameters. -/
structure PendingAction where
  type : String
  packageId : String
  nodeId : String
  deriving DecidableEq, Repr

/-- The mutable page state the source reads and writes: the
actionToConfirm slot, the hidden css flags of the modal and the overlay,
the modal body markup, the chat history, the prompt input's value and
disabled flag, the submit button's disabled flag, and whether the
loading spinner is shown. -/
structure AppState where
  actionToConfirm : Option PendingAction
  modalHidden : Bool
  modalOverlayHidden : Bool
  modalBody : String
  chatMessages : List ChatMsg
  inputValue : String
  inputDisabled : Bool
  submitDisabled : Bool
  loading : Bool
  deriving DecidableEq, Repr

/-- appendMessage: appends one entry to the chat history.  The
JSON pretty-printing branch and the scroll only change the rendered
markup, never the stored text, and are not modelled. -/
def appendMessage (st : AppState) (content : String) (role : MsgRole) : AppState :=
  { st with chatMessages := st.chatMessages ++ [⟨content, role⟩] }

/-- mockApi.getNodeStatus: the one known node is ana-agi-node-1 (the
response object interpolates id = nodeId, status Active, version
2.0.0 G-Sync and cpu_load 12.0, which JavaScript prints as 12);
any other identifier takes the not-found branch. -/
def getNodeStatus (nodeId : String) : String :=
  if nodeId = "ana-agi-node-1" then
    "Status for node " ++ nodeId
      ++ ":\n- Status: Active\n- Version: 2.0.0 G-Sync\n- CPU Load: 12%"
  else
    "Error fetching status for " ++ nodeId ++ ": Node not found."

/-- The fixed five-entry log list of mockApi.getLatestVaultLogs as
(level, message) pairs.  Each source entry also carries a timestamp
derived from Date.now(), but the timestamp never appears in the
function's output, so it is not modelled. -/
def vaultLogs : List (String × String) :=
  [("INFO", "System compliance check passed."),
   ("ERROR", "Connection to database failed."),
   ("INFO", "Deployment of package 1.9.9 started on ana-agi-node-1."),
   ("WARN", "High CPU usage detected on node-2."),
   ("INFO", "User \"admin\" logged in.")]

/-- JavaScript Array.prototype.slice(0, limit): a nonnegative limit
takes the first limit elements (clamped to the length); a negative
limit counts back from the end (clamped to zero). -/
def jsSliceTo (l : List α) (limit : Int) : List α :=
  if 0 ≤ limit then l.take limit.toNat
  else l.take (l.length - (-limit).toNat)

/-- The per-entry formatting of getLatestVaultLogs:
a bullet, the level in brackets, then the message. -/
def formatLog (log : String × String) : String :=
  "- [" ++ log.1 ++ "] " ++ log.2

/-- The formatted log entries included in getLatestVaultLogs' output. -/
def vaultLogEntries (limit : Int) : List String :=
  (jsSliceTo vaultLogs limit).map formatLog

/-- mockApi.getLatestVaultLogs: slices the fixed list to the
caller-supplied limit, formats each kept entry as a bulleted line and
prepends the header (which interpolates the limit as given). -/
def getLatestVaultLogs (limit : Int) : String :=
  "Last " ++ toString limit ++ " logs from the Vault:\n"
    ++ String.intercalate "\n" (vaultLogEntries limit)

/-- mockApi.getSystemComplianceScore (the JS number 98.5 prints
as 98.5). -/
def getSystemComplianceScore : String :=
  "Current system compliance score is: 98.5%"

/-- mockApi.startDeployment: stages the pending DEPLOYMENT action,
fills the modal body, unhides the modal and the overlay, and returns
the instruction string. -/
def startDeployment (packageId nodeId : String) (st : AppState) : AppState × String :=
  ({ st with
      actionToConfirm := some ⟨"DEPLOYMENT", packageId, nodeId⟩,
      modalBody := "<p>Are you sure you want to deploy package <strong>" ++ packageId
        ++ "</strong> to node <strong>" ++ nodeId
        ++ "</strong>?</p><p>This action will change the state of the system.</p>",
      modalHidden := false,
      modalOverlayHidden := false },
   "Please confirm the deployment in the dialog box.")

/-- hideModal (defined inside main): hides the modal and the overlay
and clears the pending action. -/
def hideModal (st : AppState) : AppState :=
  { st with modalHidden := true, modalOverlayHidden := true, actionToConfirm := none }

/-- The confirm button's click listener: when a pending action of type
DEPLOYMENT is staged it appends the success message naming the staged
packageId and nodeId, then (in every case) hides the modal. -/
def confirmClick (st : AppState) : AppState :=
  match st.actionToConfirm with
  | some a =>
      if a.type = "DEPLOYMENT" then
        hideModal (appendMessage st
          ("✅ Deployment of package '" ++ a.packageId
            ++ "' successfully initiated on node '" ++ a.nodeId ++ "'.") .model)
      else hideModal st
  | none => hideModal st

/-- The cancel button's click listener: appends the cancellation
message unconditionally, then hides the modal. -/
def cancelClick (st : AppState) : AppState :=
  hideModal (appendMessage st "❌ Deployment action was cancelled by the user." .model)

/-- The overlay's click listener (the same body as the cancel
button's). -/
def overlayClick (st : AppState) : AppState :=
  hideModal (appendMessage st "❌ Deployment action was cancelled by the user." .model)

/-- A JavaScript argument value as delivered in a function call's args
record; the tool schema declares string and integer parameters. -/
inductive JsValue where
  | str (s : String)
  | num (n : Int)
  deriving DecidableEq, Repr

/-- String coercion of the i-th positional argument, as the template
literals and the strict equality of the fixtures observe it: a string
passes through, a number prints, a missing argument is undefined. -/
def jsArgStr (args : List JsValue) (i : Nat) : String :=
  match args.get? i with
  | some (.str s) => s
  | some (.num n) => toString n
  | none => "undefined"

/-- Integer reading of the i-th positional argument (the limit
parameter, declared INTEGER by the tool schema).  Out-of-schema
values — a non-numeric string or a missing argument — are mapped to 0
rather than reproducing JavaScript's full ToInteger coercion. -/
def jsArgInt (args : List JsValue) (i : Nat) : Int :=
  match args.get? i with
  | some (.num n) => n
  | some (.str s) => (s.toInt?).getD 0
  | none => 0

/-- The four own keys of the mockApi object literal (the names of the
mock fixtures).  This is not by itself the source's dispatch guard:
name in mockApi uses JavaScript's in operator, which also accepts every
member inherited from Object.prototype — see jsInMockApi. -/
def mockApiHas (name : String) : Bool :=
  name == "getNodeStatus" || name == "getLatestVaultLogs"
    || name == "getSystemComplianceScore" || name == "startDeployment"

/-- The property names of Object.prototype (ECMA-262, with the Annex B
web members, which browsers implement): the prototype chain of the
plain object literal mockApi consists of exactly Object.prototype. -/
def objectPrototypeProps : List String :=
  ["constructor", "hasOwnProperty", "isPrototypeOf", "propertyIsEnumerable",
   "toLocaleString", "toString", "valueOf",
   "__proto__", "__defineGetter__", "__defineSetter__",
   "__lookupGetter__", "__lookupSetter__"]

/-- The source's dispatch guard name in mockApi: JavaScript's in
operator accepts the four own keys and, through the prototype chain,
every Object.prototype member. -/
def jsInMockApi (name : String) : Bool :=
  mockApiHas name || objectPrototypeProps.contains name

/-- The inherited members whose invocation by the dispatch line
mockApi[name](...) throws a TypeError: mockApi.__proto__ evaluates to
Object.prototype itself, which is not callable, and __defineGetter__
and __defineSetter__ require a callable second argument, which the
schema-typed argument values (strings and integers) never are. -/
def jsInvocationThrows (name : String) : Bool :=
  name == "__proto__" || name == "__defineGetter__" || name == "__defineSetter__"

/-- The thrown TypeError's message.  The exact text is engine-specific;
only its presence matters to the loop, which renders it after the
Error: prefix. -/
def jsInvocationError (name : String) : String :=
  name ++ " is not a function"

/-- One requested function call of a model response: a name and the
positional values of its args record (Object.values unpacks the record
in insertion order). -/
structure FuncCall where
  name : String
  args : List JsValue
  deriving DecidableEq, Repr

/-- A JavaScript value as returned by an invoked property of mockApi:
the four fixtures return strings; the inherited Object.prototype
members can also return booleans, objects or functions (both modelled
as object) and undefined. -/
inductive JsResult where
  | str (s : String)
  | bool (b : Bool)
  | object
  | undefined
  deriving DecidableEq, Repr

/-- mockApi[name](...Object.values(args)) for a name the in-guard
accepted whose invocation does not throw: a fixture name invokes the
matching fixture on the coerced positional arguments, threading the
page state (which only startDeployment changes); an inherited
Object.prototype member is invoked with this = mockApi, so toString
and toLocaleString yield the plain-object tag string, valueOf yields
the mockApi object, hasOwnProperty and propertyIsEnumerable test the
(enumerable) own keys at the coerced key, isPrototypeOf is false for
the primitive argument values, constructor is Object called as a
function (an object for every argument), and the accessor lookups find
an accessor only at the inherited __proto__ key.  The final arm is
unreachable under the guard. -/
def invokeMock (st : AppState) (c : FuncCall) : AppState × JsResult :=
  match c.name with
  | "getNodeStatus" => (st, .str (getNodeStatus (jsArgStr c.args 0)))
  | "getLatestVaultLogs" => (st, .str (getLatestVaultLogs (jsArgInt c.args 0)))
  | "getSystemComplianceScore" => (st, .str getSystemComplianceScore)
  | "startDeployment" =>
      let r := startDeployment (jsArgStr c.args 0) (jsArgStr c.args 1) st
      (r.1, .str r.2)
  | "toString" => (st, .str "[object Object]")
  | "toLocaleString" => (st, .str "[object Object]")
  | "valueOf" => (st, .object)
  | "hasOwnProperty" => (st, .bool (mockApiHas (jsArgStr c.args 0)))
  | "propertyIsEnumerable" => (st, .bool (mockApiHas (jsArgStr c.args 0)))
  | "isPrototypeOf" => (st, .bool false)
  | "constructor" => (st, .object)
  | "__lookupGetter__" =>
      (st, if jsArgStr c.args 0 == "__proto__" then .object else .undefined)
  | "__lookupSetter__" =>
      (st, if jsArgStr c.args 0 == "__proto__" then .object else .undefined)
  | _ => (st, .undefined)

/-- One entry pushed onto functionResponses: the object name plus
response.result, the invoked function's return value. -/
structure FunctionResponse where
  name : String
  result : JsResult
  deriving DecidableEq, Repr

/-- The for-loop over response.functionCalls restricted to the four own
mockApi keys: a call naming a fixture is invoked and its wrapped result
pushed; every other name is skipped.  On call lists in which every name
names a fixture this agrees with jsProcessFunctionCalls, the full model
of the source's name-in-mockApi guard; the fixture-only dispatch claims
are stated with it. -/
def processFunctionCalls (st : AppState) : List FuncCall → AppState × List FunctionResponse
  | [] => (st, [])
  | c :: cs =>
      if mockApiHas c.name then
        let r := invokeMock st c
        let rest := processFunctionCalls r.1 cs
        (rest.1, ⟨c.name, r.2⟩ :: rest.2)
      else
        processFunctionCalls st cs

/-- The for-loop over response.functionCalls as the source runs it: the
guard name in mockApi accepts the four own keys and every inherited
Object.prototype member; an accepted call is invoked — the three
members of jsInvocationThrows throw instead, aborting the loop with the
page state reached so far, before any send — and its wrapped result
pushed; a call failing the guard is skipped without an entry and
without an error. -/
def jsProcessFunctionCalls (st : AppState) :
    List FuncCall → Except (String × AppState) (AppState × List FunctionResponse)
  | [] => .ok (st, [])
  | c :: cs =>
      if jsInMockApi c.name then
        if jsInvocationThrows c.name then
          .error (jsInvocationError c.name, st)
        else
          let r := invokeMock st c
          match jsProcessFunctionCalls r.1 cs with
          | .error e => .error e
          | .ok (st2, rs) => .ok (st2, ⟨c.name, r.2⟩ :: rs)
      else
        jsProcessFunctionCalls st cs

/-- A model response: the requested function calls (an absent
functionCalls field and an empty list both fail the loop guard, so
absence is modelled as the empty list) and the optional text. -/
structure ModelResponse where
  functionCalls : List FuncCall
  text : Option String
  deriving DecidableEq, Repr

/-- A message given to chat.sendMessage: the user's utterance, or the
batch of wrapped function responses. -/
inductive SendMsg where
  | user (s : String)
  | funcResults (rs : List FunctionResponse)
  deriving DecidableEq, Repr

/-- The chat session: sendMessage keeps the dialogue history, so the
session is modelled as a deterministic function of the history of
messages sent so far.  An exception thrown by the call is an error
value carrying the thrown Error's message. -/
def ChatOracle : Type :=
  List SendMsg → Except String ModelResponse

/-- The while-loop of the submit handler, with explicit fuel (none
means the model kept requesting calls past the fuel).  While the
response carries function calls: process them with the source's
in-guard (jsProcessFunctionCalls; a TypeError thrown while invoking an
inherited member aborts the loop before the send), send the batch of
wrapped results as the next message, and continue on the new response;
a thrown exception aborts the loop carrying the state reached so far. -/
def dispatchLoop (oracle : ChatOracle) (fuel : Nat) (st : AppState)
    (hist : List SendMsg) (resp : ModelResponse) :
    Option (Except (String × AppState) (AppState × ModelResponse)) :=
  if resp.functionCalls.isEmpty then
    some (.ok (st, resp))
  else
    match fuel with
    | 0 => none
    | f + 1 =>
        match jsProcessFunctionCalls st resp.functionCalls with
        | .error e => some (.error e)
        | .ok (st1, rs) =>
            let hist' := hist ++ [SendMsg.funcResults rs]
            match oracle hist' with
            | .error e => some (.error (e, st1))
            | .ok resp' => dispatchLoop oracle f st1 hist' resp'

/-- The try block of the submit handler: the first send of the user's
message, then the dispatch loop. -/
def submitCycle (oracle : ChatOracle) (fuel : Nat) (st : AppState)
    (userMessage : String) :
    Option (Except (String × AppState) (AppState × ModelResponse)) :=
  match oracle [SendMsg.user userMessage] with
  | .error e => some (.error (e, st))
  | .ok resp => dispatchLoop oracle fuel st [SendMsg.user userMessage] resp

/-- JavaScript String.prototype.trim as the submit handler applies it
to the prompt input: leading and trailing whitespace dropped, modelled
structurally on the character list (whitespace per Char.isWhitespace). -/
def jsTrim (s : String) : String :=
  ⟨((s.data.dropWhile Char.isWhitespace).reverse.dropWhile Char.isWhitespace).reverse⟩

/-- The submit handler's state updates before the try block: clear and
disable the input, disable the submit button, append the user's message
and show the loading spinner. -/
def beginSubmit (st : AppState) (userMessage : String) : AppState :=
  { appendMessage
      { st with inputValue := "", inputDisabled := true, submitDisabled := true }
      userMessage .user
    with loading := true }

/-- The submit listener: an all-blank input returns at once; otherwise
the try block runs the send/dispatch cycle; on success the spinner is
hidden and the final text appended when truthy (the source's
if response.text is false for an absent and for an empty string); on a
thrown error the spinner is hidden and the error message appended; the
finally block re-enables the input and the submit button in both
paths.  none: the fuel ran out inside the loop. -/
def handleSubmit (oracle : ChatOracle) (fuel : Nat) (st : AppState) : Option AppState :=
  let userMessage := jsTrim st.inputValue
  if userMessage = "" then some st
  else
    match submitCycle oracle fuel (beginSubmit st userMessage) userMessage with
    | none => none
    | some (.ok (st1, resp)) =>
        let st2 := { st1 with loading := false }
        let st3 :=
          match resp.text with
          | some t => if t = "" then st2 else appendMessage st2 t .model
          | none => st2
        some { st3 with inputDisabled := false, submitDisabled := false }
    | some (.error (e, st1)) =>
        let st2 := appendMessage { st1 with loading := false } ("Error: " ++ e) .model
        some { st2 with inputDisabled := false, submitDisabled := false }

/-- What main() does before (or instead of) its steady state: which
chat messages it rendered, and whether it installed the modal
listeners, created the chat session and installed the submit
listener. -/
structure StartupResult where
  messages : List ChatMsg
  modalListenersInstalled : Bool
  chatCreated : Bool
  submitListenerInstalled : Bool
  deriving DecidableEq, Repr

/-- JavaScript truthiness of process.env.API_KEY: an absent variable
and an empty string are both falsy. -/
def apiKeyConfigured : Option String → Bool
  | some k => !(k == "")
  | none => false

/-- main(): with no usable API_KEY it appends one error message to the
chat pane and returns before installing the modal listeners, creating
the chat session or installing the submit listener; otherwise it does
all three and renders nothing. -/
def mainStartup (apiKey : Option String) : StartupResult :=
  if !apiKeyConfigured apiKey then
    { messages :=
        [⟨"ERROR: API_KEY is not configured. Please set it in the environment variables.",
          .model⟩],
      modalListenersInstalled := false, chatCreated := false,
      submitListenerInstalled := false }
  else
    { messages := [], modalListenersInstalled := true, chatCreated := true,
      submitListenerInstalled := true }

/-- s contains pat as a contiguous substring. -/
def ContainsSubstr (s pat : String) : Prop :=
  ∃ a b : String, s = a ++ pat ++ b

/-- s is an error-shaped string: it starts with Error. -/
def StartsWithError (s : String) : Prop :=
  ∃ rest : String, s = "Error" ++ rest

/-- A concrete page state used to instantiate the theorems: nothing
pending, modal hidden, empty history and enabled controls. -/
def initialState : AppState :=
  { actionToConfirm := none, modalHidden := true, modalOverlayHidden := true,
    modalBody := "", chatMessages := [], inputValue := "",
    inputDisabled := false, submitDisabled := false, loading := false }


/-- A chat session that throws on every send: a concrete oracle used
to instantiate the theorems. -/
def failingOracle : ChatOracle := fun _ => .error "Network failure"

/-- A concrete page state whose prompt input holds hello. -/
def promptState : AppState := { initialState with inputValue := "hello" }

/-- The page state the submit handler produces from promptState when
every send throws. -/
def errorOutcome : AppState := (handleSubmit failingOracle 0 promptState).getD initialState

/-- The page state after startDeployment staged a pending action. -/
def stagedState : AppState := (startDeployment "2.0.0 G-Sync" "ana-agi-node-1" initialState).1

/-- A page state whose pending slot holds an action of a type other
than DEPLOYMENT. -/
def nonDeployState : AppState :=
  { initialState with actionToConfirm := some ⟨"OTHER", "pkg", "node"⟩ }

/-- A concrete requested call of getNodeStatus. -/
def statusCall : FuncCall := ⟨"getNodeStatus", [.str "ana-agi-node-1"]⟩

/-- A concrete requested call of getSystemComplianceScore. -/
def scoreCall : FuncCall := ⟨"getSystemComplianceScore", []⟩

/-- A concrete model response requesting exactly two mock-fixture
calls. -/
def twoCallResponse : ModelResponse := ⟨[statusCall, scoreCall], none⟩

/-- An error-shaped string begins with the character E. -/
theorem startsWithError_head {s : String} (h : StartsWithError s) :
    s.data.head? = some 'E' := by
  obtain ⟨rest, rfl⟩ := h
  cases rest
  rfl

/-- A string whose first character is not E is not error-shaped. -/
theorem not_startsWithError {s : String} (c : Char) (hc : s.data.head? = some c)
    (hne : c ≠ 'E') : ¬ StartsWithError s := by
  intro h
  rw [startsWithError_head h] at hc
  exact hne (Option.some.inj hc).symm

/-- C2: for every node identifier, the known node ana-agi-node-1 yields
a string containing the identifier together with its status, version
and CPU load, and any other identifier yields the not-found message. -/
theorem getNodeStatus_spec (nodeId : String) :
    (nodeId = "ana-agi-node-1" →
      ContainsSubstr (getNodeStatus nodeId) nodeId ∧
      ContainsSubstr (getNodeStatus nodeId) "Status: Active" ∧
      ContainsSubstr (getNodeStatus nodeId) "Version: 2.0.0 G-Sync" ∧
      ContainsSubstr (getNodeStatus nodeId) "CPU Load: 12%") ∧
    (nodeId ≠ "ana-agi-node-1" →
      getNodeStatus nodeId = "Error fetching status for " ++ nodeId ++ ": Node not found." ∧
      ContainsSubstr (getNodeStatus nodeId) "Node not found.") := by
  constructor
  · rintro rfl
    exact ⟨⟨"Status for node ",
        ":\n- Status: Active\n- Version: 2.0.0 G-Sync\n- CPU Load: 12%", by rfl⟩,
      ⟨"Status for node ana-agi-node-1:\n- ",
        "\n- Version: 2.0.0 G-Sync\n- CPU Load: 12%", by rfl⟩,
      ⟨"Status for node ana-agi-node-1:\n- Status: Active\n- ",
        "\n- CPU Load: 12%", by rfl⟩,
      ⟨"Status for node ana-agi-node-1:\n- Status: Active\n- Version: 2.0.0 G-Sync\n- ",
        "", by rfl⟩⟩
  · intro h
    have he : getNodeStatus nodeId =
        "Error fetching status for " ++ nodeId ++ ": Node not found." := by
      rw [getNodeStatus, if_neg h]
    refine ⟨he, ?_⟩
    rw [he]
    refine ⟨"Error fetching status for " ++ nodeId ++ ": ", "", ?_⟩
    have h2 : (": Node not found." : String) = ": " ++ "Node not found." := by rfl
    rw [h2]
    simp [String.append_assoc]

/-- C2 witness: both branches at concrete identifiers. -/
theorem getNodeStatus_spec_witness :
    ContainsSubstr (getNodeStatus "ana-agi-node-1") "Status: Active" ∧
    getNodeStatus "unknown-node" =
      "Error fetching status for " ++ "unknown-node" ++ ": Node not found." :=
  ⟨((getNodeStatus_spec "ana-agi-node-1").1 rfl).2.1,
   ((getNodeStatus_spec "unknown-node").2 (by decide)).1⟩

/-- C3 counterexample: at limit -1 the returned string holds four
bulleted entries, so it does not contain at most -1 entries; the claim
as stated fails for a negative limit, which JavaScript slice counts
from the end of the list. -/
theorem vaultLogs_limit_counterexample :
    ¬(((vaultLogEntries (-1)).length : Int) ≤ -1) ∧
    getLatestVaultLogs (-1) =
      "Last -1 logs from the Vault:\n- [INFO] System compliance check passed.\n- [ERROR] Connection to database failed.\n- [INFO] Deployment of package 1.9.9 started on ana-agi-node-1.\n- [WARN] High CPU usage detected on node-2." :=
  ⟨by decide, by rfl⟩

/-- C3 (amended): for every nonnegative limit N, the returned string
contains at most N log entries, and each included entry is a bulleted
line beginning with a dash and a space. -/
theorem vaultLogEntries_le_limit (N : Int) (h : 0 ≤ N) :
    ((vaultLogEntries N).length : Int) ≤ N ∧
    ∀ e ∈ vaultLogEntries N, ∃ rest, e = "- " ++ rest := by
  constructor
  · have h1 : vaultLogEntries N = (vaultLogs.take N.toNat).map formatLog := by
      rw [vaultLogEntries, jsSliceTo, if_pos h]
    have h0 : vaultLogs.length = 5 := rfl
    rw [h1, List.length_map, List.length_take, h0]
    omega
  · intro e he
    rw [vaultLogEntries] at he
    obtain ⟨x, _, rfl⟩ := List.mem_map.mp he
    refine ⟨"[" ++ x.1 ++ "] " ++ x.2, ?_⟩
    show "- [" ++ x.1 ++ "] " ++ x.2 = _
    apply String.ext
    have h4 : "- [".data = "- ".data ++ "[".data := rfl
    simp [String.data_append, h4, List.append_assoc]

/-- C3 witness: the amended claim at limit 3. -/
theorem vaultLogEntries_le_limit_witness :
    ((vaultLogEntries 3).length : Int) ≤ 3 ∧
    ∀ e ∈ vaultLogEntries 3, ∃ rest, e = "- " ++ rest :=
  vaultLogEntries_le_limit 3 (by decide)

/-- C8: for every limit, at most 5 entries are returned because the
underlying list is fixed at 5; a limit larger than 5 yields exactly 5
entries while the header still interpolates the requested limit. -/
theorem vaultLogs_cap_five (N : Int) (h : 5 < N) :
    vaultLogs.length = 5 ∧
    (∀ M : Int, (vaultLogEntries M).length ≤ 5) ∧
    (vaultLogEntries N).length = 5 ∧
    getLatestVaultLogs N =
      "Last " ++ toString N ++ " logs from the Vault:\n"
        ++ String.intercalate "\n" (vaultLogs.map formatLog) := by
  have hlen : vaultLogs.length = 5 := rfl
  have hmap : ∀ M : Int, (vaultLogEntries M).length = (jsSliceTo vaultLogs M).length := by
    intro M
    rw [vaultLogEntries, List.length_map]
  have htake : ∀ n : Nat, (vaultLogs.take n).length ≤ 5 := by
    intro n
    rw [List.length_take, hlen]
    exact Nat.min_le_right _ _
  have hcap : ∀ M : Int, (vaultLogEntries M).length ≤ 5 := by
    intro M
    rw [hmap M, jsSliceTo]
    split
    · exact htake _
    · exact htake _
  have hfull : jsSliceTo vaultLogs N = vaultLogs := by
    rw [jsSliceTo, if_pos (by omega : (0 : Int) ≤ N)]
    exact List.take_of_length_le (by rw [hlen]; omega)
  refine ⟨hlen, hcap, ?_, ?_⟩
  · rw [hmap, hfull, hlen]
  · rw [getLatestVaultLogs, vaultLogEntries, hfull]

/-- C8 witness: the cap at limit 7. -/
theorem vaultLogs_cap_five_witness :
    vaultLogs.length = 5 ∧
    (∀ M : Int, (vaultLogEntries M).length ≤ 5) ∧
    (vaultLogEntries 7).length = 5 ∧
    getLatestVaultLogs 7 =
      "Last " ++ toString (7 : Int) ++ " logs from the Vault:\n"
        ++ String.intercalate "\n" (vaultLogs.map formatLog) :=
  vaultLogs_cap_five 7 (by decide)

/-- A fixture name passes the in-guard, and its invocation does not
throw. -/
theorem mockApiHas_props {name : String} (h : mockApiHas name = true) :
    jsInMockApi name = true ∧ jsInvocationThrows name = false := by
  rw [mockApiHas] at h
  simp only [Bool.or_eq_true, beq_iff_eq] at h
  rcases h with ((h | h) | h) | h <;> subst h <;> exact ⟨rfl, rfl⟩

/-- C1: a response carrying exactly two calls naming mock fixtures
makes the dispatch loop invoke both fixtures in order and send exactly
their two named function-result entries as the next message, before
resuming the loop on the reply to that send. -/
theorem dispatch_two_calls (oracle : ChatOracle) (fuel : Nat) (st : AppState)
    (hist : List SendMsg) (resp : ModelResponse) (c c' : FuncCall)
    (hcalls : resp.functionCalls = [c, c'])
    (h1 : mockApiHas c.name = true) (h2 : mockApiHas c'.name = true) :
    (processFunctionCalls st resp.functionCalls).2 =
      [⟨c.name, (invokeMock st c).2⟩,
       ⟨c'.name, (invokeMock (invokeMock st c).1 c').2⟩] ∧
    (processFunctionCalls st resp.functionCalls).2.length = 2 ∧
    dispatchLoop oracle (fuel + 1) st hist resp =
      (match oracle (hist ++ [SendMsg.funcResults (processFunctionCalls st resp.functionCalls).2]) with
       | .error e => some (.error (e, (processFunctionCalls st resp.functionCalls).1))
       | .ok resp2 =>
           dispatchLoop oracle fuel (processFunctionCalls st resp.functionCalls).1
             (hist ++ [SendMsg.funcResults (processFunctionCalls st resp.functionCalls).2])
             resp2) := by
  obtain ⟨calls, text⟩ := resp
  have hc : calls = [c, c'] := hcalls
  subst hc
  have p1 := mockApiHas_props h1
  have p2 := mockApiHas_props h2
  refine ⟨?_, ?_, ?_⟩
  · simp [processFunctionCalls, h1, h2]
  · simp [processFunctionCalls, h1, h2]
  · have hagree : jsProcessFunctionCalls st [c, c'] =
        Except.ok ((processFunctionCalls st [c, c']).1,
          (processFunctionCalls st [c, c']).2) := by
      simp [jsProcessFunctionCalls, processFunctionCalls,
        h1, h2, p1.1, p1.2, p2.1, p2.2]
    conv_lhs => rw [dispatchLoop]
    simp only [List.isEmpty_cons, Bool.false_eq_true, if_false]
    rw [hagree]

/-- C1 witness: a concrete two-call response. -/
theorem dispatch_two_calls_witness :
    (processFunctionCalls initialState twoCallResponse.functionCalls).2 =
      [⟨statusCall.name, (invokeMock initialState statusCall).2⟩,
       ⟨scoreCall.name, (invokeMock (invokeMock initialState statusCall).1 scoreCall).2⟩] ∧
    (processFunctionCalls initialState twoCallResponse.functionCalls).2.length = 2 ∧
    dispatchLoop failingOracle (0 + 1) initialState [] twoCallResponse =
      (match failingOracle ([] ++ [SendMsg.funcResults (processFunctionCalls initialState twoCallResponse.functionCalls).2]) with
       | .error e => some (.error (e, (processFunctionCalls initialState twoCallResponse.functionCalls).1))
       | .ok resp2 =>
           dispatchLoop failingOracle 0 (processFunctionCalls initialState twoCallResponse.functionCalls).1
             ([] ++ [SendMsg.funcResults (processFunctionCalls initialState twoCallResponse.functionCalls).2])
             resp2) :=
  dispatch_two_calls failingOracle 0 initialState [] twoCallResponse statusCall scoreCall
    (by rfl) (by rfl) (by rfl)

/-- C9 counterexample: toString is not one of the four mock API
functions, yet the source guard name in mockApi accepts it (inherited
from Object.prototype), so the dispatch invokes the inherited
Object.prototype.toString and pushes a function-result entry for the
call instead of skipping it. -/
theorem dispatch_unknown_counterexample :
    mockApiHas "toString" = false ∧
    jsInMockApi "toString" = true ∧
    jsProcessFunctionCalls initialState [⟨"toString", []⟩] =
      Except.ok (initialState, [⟨"toString", JsResult.str "[object Object]"⟩]) :=
  ⟨rfl, rfl, rfl⟩

/-- C9 (amended): a requested call whose name fails the source's
name-in-mockApi guard — it is neither one of the four mock API
functions nor an inherited Object.prototype member — is skipped
silently: no handler runs, no entry is pushed and no error is raised,
so a successful batch holds exactly one entry per guard-passing call
and may be shorter than the request list. -/
theorem dispatch_skips_non_property (st : AppState) (c : FuncCall) (cs : List FuncCall)
    (h : jsInMockApi c.name = false) :
    jsProcessFunctionCalls st (c :: cs) = jsProcessFunctionCalls st cs ∧
    ∀ (st' : AppState) (calls : List FuncCall) (st2 : AppState)
      (rs : List FunctionResponse),
      jsProcessFunctionCalls st' calls = Except.ok (st2, rs) →
      rs.length = (calls.filter fun k => jsInMockApi k.name).length ∧
      rs.length ≤ calls.length := by
  refine ⟨by simp [jsProcessFunctionCalls, h], ?_⟩
  intro st' calls
  induction calls generalizing st' with
  | nil =>
      intro st2 rs hok
      simp only [jsProcessFunctionCalls, Except.ok.injEq, Prod.mk.injEq] at hok
      obtain ⟨-, rfl⟩ := hok
      simp
  | cons d ds ih =>
      intro st2 rs hok
      cases hg : jsInMockApi d.name with
      | false =>
          simp only [jsProcessFunctionCalls, hg, Bool.false_eq_true, if_false] at hok
          have hih := ih st' st2 rs hok
          simp only [List.filter_cons, hg, Bool.false_eq_true, if_false, List.length_cons]
          exact ⟨hih.1, Nat.le_succ_of_le hih.2⟩
      | true =>
          cases ht : jsInvocationThrows d.name with
          | true =>
              simp only [jsProcessFunctionCalls, hg, ht, if_true] at hok
              exact absurd hok (by simp)
          | false =>
              simp only [jsProcessFunctionCalls, hg, ht, Bool.false_eq_true,
                if_false, if_true] at hok
              rcases hrec : jsProcessFunctionCalls (invokeMock st' d).1 ds with e | ⟨st3, rs3⟩
              · rw [hrec] at hok
                exact absurd hok (by simp)
              · rw [hrec] at hok
                simp only [Except.ok.injEq, Prod.mk.injEq] at hok
                obtain ⟨rfl, rfl⟩ := hok
                have hih := ih (invokeMock st' d).1 st3 rs3 hrec
                simp only [List.filter_cons, hg, if_true, List.length_cons]
                exact ⟨by rw [hih.1], Nat.succ_le_succ hih.2⟩

/-- C9 witness: a concrete call whose name misses the own keys of
mockApi and the Object.prototype members alike. -/
theorem dispatch_skips_non_property_witness :
    jsProcessFunctionCalls initialState (⟨"fooBar", []⟩ :: [scoreCall]) =
      jsProcessFunctionCalls initialState [scoreCall] ∧
    ∀ (st' : AppState) (calls : List FuncCall) (st2 : AppState)
      (rs : List FunctionResponse),
      jsProcessFunctionCalls st' calls = Except.ok (st2, rs) →
      rs.length = (calls.filter fun k => jsInMockApi k.name).length ∧
      rs.length ≤ calls.length :=
  dispatch_skips_non_property initialState ⟨"fooBar", []⟩ [scoreCall] (by rfl)

/-- C4: whenever the submit handler finishes (success or thrown error),
the input and the submit button end up enabled and the spinner hidden;
and when the send/dispatch cycle threw, the loop aborted and the error
message was rendered as the last chat entry. -/
theorem submit_reenables_controls (oracle : ChatOracle) (fuel : Nat) (st st' : AppState)
    (hmsg : ¬ jsTrim st.inputValue = "")
    (hrun : handleSubmit oracle fuel st = some st') :
    st'.inputDisabled = false ∧ st'.submitDisabled = false ∧ st'.loading = false ∧
    ∀ e stErr,
      submitCycle oracle fuel (beginSubmit st (jsTrim st.inputValue)) (jsTrim st.inputValue) =
        some (.error (e, stErr)) →
      st'.chatMessages = stErr.chatMessages ++ [⟨"Error: " ++ e, .model⟩] := by
  rw [handleSubmit] at hrun
  simp only [if_neg hmsg] at hrun
  rcases hsc : submitCycle oracle fuel (beginSubmit st (jsTrim st.inputValue))
      (jsTrim st.inputValue) with _ | r
  · rw [hsc] at hrun
    exact absurd hrun (by simp)
  · rcases r with ⟨e0, stErr0⟩ | ⟨st1, resp⟩
    · rw [hsc] at hrun
      simp only [Option.some.injEq] at hrun
      subst hrun
      refine ⟨rfl, rfl, rfl, ?_⟩
      intro e stErr hE
      simp only [Option.some.injEq, Except.error.injEq, Prod.mk.injEq] at hE
      obtain ⟨he, hst⟩ := hE
      subst he
      subst hst
      simp [appendMessage]
    · rw [hsc] at hrun
      simp only [Option.some.injEq] at hrun
      subst hrun
      refine ⟨rfl, rfl, ?_, ?_⟩
      · rcases resp.text with _ | t
        · rfl
        · by_cases ht : t = ""
          · simp [ht]
          · simp [ht, appendMessage]
      · intro e stErr hE
        exact absurd hE (by simp)

/-- C4 witness: a submit against a chat session that throws. -/
theorem submit_reenables_controls_witness :
    errorOutcome.inputDisabled = false ∧ errorOutcome.submitDisabled = false ∧
    errorOutcome.loading = false ∧
    ∀ e stErr,
      submitCycle failingOracle 0 (beginSubmit promptState (jsTrim promptState.inputValue))
          (jsTrim promptState.inputValue) = some (.error (e, stErr)) →
      errorOutcome.chatMessages = stErr.chatMessages ++ [⟨"Error: " ++ e, .model⟩] :=
  submit_reenables_controls failingOracle 0 promptState errorOutcome (by decide) (by rfl)

/-- C5: startDeployment enters awaiting-confirmation; from a state with
a staged DEPLOYMENT action, confirm clears the pending slot, hides the
modal and renders the success message naming the staged package and
node; cancel and overlay click clear the slot and render the
cancellation message; every exit transition of the three listeners
returns the slot to idle. -/
theorem modal_state_machine (st stp : AppState) (p n : String)
    (h : st.actionToConfirm = some ⟨"DEPLOYMENT", p, n⟩) :
    ((startDeployment p n stp).1.actionToConfirm = some ⟨"DEPLOYMENT", p, n⟩ ∧
      (startDeployment p n stp).1.modalHidden = false ∧
      (startDeployment p n stp).1.modalOverlayHidden = false) ∧
    ((confirmClick st).actionToConfirm = none ∧
      (confirmClick st).modalHidden = true ∧
      (confirmClick st).modalOverlayHidden = true ∧
      (confirmClick st).chatMessages = st.chatMessages ++
        [⟨"✅ Deployment of package '" ++ p ++ "' successfully initiated on node '"
            ++ n ++ "'.", .model⟩]) ∧
    ((cancelClick st).actionToConfirm = none ∧
      (cancelClick st).modalHidden = true ∧
      (cancelClick st).modalOverlayHidden = true ∧
      (cancelClick st).chatMessages = st.chatMessages ++
        [⟨"❌ Deployment action was cancelled by the user.", .model⟩]) ∧
    ((overlayClick st).actionToConfirm = none ∧
      (overlayClick st).modalHidden = true ∧
      (overlayClick st).modalOverlayHidden = true ∧
      (overlayClick st).chatMessages = st.chatMessages ++
        [⟨"❌ Deployment action was cancelled by the user.", .model⟩]) ∧
    (∀ s : AppState, (confirmClick s).actionToConfirm = none ∧
      (cancelClick s).actionToConfirm = none ∧ (overlayClick s).actionToConfirm = none) := by
  refine ⟨by simp [startDeployment], ?_,
    by simp [cancelClick, hideModal, appendMessage],
    by simp [overlayClick, hideModal, appendMessage], ?_⟩
  · rw [confirmClick, h]
    simp [hideModal, appendMessage]
  · intro s
    rcases hs : s.actionToConfirm with _ | a
    · simp [confirmClick, hs, hideModal, cancelClick, overlayClick]
    · by_cases ht : a.type = "DEPLOYMENT" <;>
        simp [confirmClick, hs, ht, hideModal, cancelClick, overlayClick]

/-- C5 witness: the staged concrete deployment. -/
theorem modal_state_machine_witness :
    ((startDeployment "2.0.0 G-Sync" "ana-agi-node-1" initialState).1.actionToConfirm =
        some ⟨"DEPLOYMENT", "2.0.0 G-Sync", "ana-agi-node-1"⟩ ∧
      (startDeployment "2.0.0 G-Sync" "ana-agi-node-1" initialState).1.modalHidden = false ∧
      (startDeployment "2.0.0 G-Sync" "ana-agi-node-1" initialState).1.modalOverlayHidden = false) ∧
    ((confirmClick stagedState).actionToConfirm = none ∧
      (confirmClick stagedState).modalHidden = true ∧
      (confirmClick stagedState).modalOverlayHidden = true ∧
      (confirmClick stagedState).chatMessages = stagedState.chatMessages ++
        [⟨"✅ Deployment of package '" ++ "2.0.0 G-Sync" ++ "' successfully initiated on node '"
            ++ "ana-agi-node-1" ++ "'.", .model⟩]) ∧
    ((cancelClick stagedState).actionToConfirm = none ∧
      (cancelClick stagedState).modalHidden = true ∧
      (cancelClick stagedState).modalOverlayHidden = true ∧
      (cancelClick stagedState).chatMessages = stagedState.chatMessages ++
        [⟨"❌ Deployment action was cancelled by the user.", .model⟩]) ∧
    ((overlayClick stagedState).actionToConfirm = none ∧
      (overlayClick stagedState).modalHidden = true ∧
      (overlayClick stagedState).modalOverlayHidden = true ∧
      (overlayClick stagedState).chatMessages = stagedState.chatMessages ++
        [⟨"❌ Deployment action was cancelled by the user.", .model⟩]) ∧
    (∀ s : AppState, (confirmClick s).actionToConfirm = none ∧
      (cancelClick s).actionToConfirm = none ∧ (overlayClick s).actionToConfirm = none) :=
  modal_state_machine stagedState initialState "2.0.0 G-Sync" "ana-agi-node-1" (by rfl)

/-- C6: with the API_KEY credential absent, startup reports the failure
once as a chat message and performs no further work: no listeners are
installed and no chat session is created. -/
theorem missing_api_key_inert :
    mainStartup none =
      { messages :=
          [⟨"ERROR: API_KEY is not configured. Please set it in the environment variables.",
            .model⟩],
        modalListenersInstalled := false, chatCreated := false,
        submitListenerInstalled := false } ∧
    (mainStartup none).messages.length = 1 ∧
    (mainStartup none).modalListenersInstalled = false ∧
    (mainStartup none).chatCreated = false ∧
    (mainStartup none).submitListenerInstalled = false :=
  ⟨rfl, rfl, rfl, rfl, rfl⟩

/-- C7: the four fixtures are total pure functions of their inputs and
the page state (their embedding returns a value for every input, so
none throws, and none performs I/O beyond the modal fields
startDeployment writes); the only failure any of them signals is the
status lookup's error string, produced exactly for unknown
identifiers. -/
theorem mockApi_fixtures_safe (nodeId : String) (limit : Int)
    (packageId targetNode : String) (st : AppState) :
    ¬ StartsWithError (getLatestVaultLogs limit) ∧
    ¬ StartsWithError getSystemComplianceScore ∧
    ¬ StartsWithError (startDeployment packageId targetNode st).2 ∧
    (startDeployment packageId targetNode st).2 =
      "Please confirm the deployment in the dialog box." ∧
    (StartsWithError (getNodeStatus nodeId) ↔ nodeId ≠ "ana-agi-node-1") := by
  refine ⟨?_, ?_, ?_, rfl, ?_, ?_⟩
  · refine not_startsWithError 'L' ?_ (by decide)
    rw [getLatestVaultLogs]
    simp only [String.data_append, List.append_assoc]
    rfl
  · exact not_startsWithError 'C' (by rfl) (by decide)
  · exact not_startsWithError 'P' (by rfl) (by decide)
  · intro hsw heq
    subst heq
    exact not_startsWithError 'S' (by rfl) (by decide) hsw
  · intro hne
    refine ⟨" fetching status for " ++ nodeId ++ ": Node not found.", ?_⟩
    rw [getNodeStatus, if_neg hne]
    apply String.ext
    have h5 : "Error fetching status for ".data = "Error".data ++ " fetching status for ".data := rfl
    simp [String.data_append, h5, List.append_assoc]

/-- C10: clicking confirm with nothing pending (or a non-DEPLOYMENT
action pending) just hides the modal and clears the slot without a
success message, while cancel and overlay click render the
cancellation message unconditionally. -/
theorem confirm_without_pending (st : AppState)
    (h : ∀ a : PendingAction, st.actionToConfirm = some a → ¬ a.type = "DEPLOYMENT") :
    confirmClick st = hideModal st ∧
    (confirmClick st).chatMessages = st.chatMessages ∧
    (confirmClick st).actionToConfirm = none ∧
    (confirmClick st).modalHidden = true ∧
    (confirmClick st).modalOverlayHidden = true ∧
    (∀ s : AppState,
      (cancelClick s).chatMessages =
        s.chatMessages ++ [⟨"❌ Deployment action was cancelled by the user.", .model⟩] ∧
      (overlayClick s).chatMessages =
        s.chatMessages ++ [⟨"❌ Deployment action was cancelled by the user.", .model⟩]) := by
  have hc : confirmClick st = hideModal st := by
    rw [confirmClick]
    rcases hs : st.actionToConfirm with _ | a
    · rfl
    · have ht := h a hs
      simp [ht]
  refine ⟨hc, by rw [hc]; rfl, by rw [hc]; rfl, by rw [hc]; rfl, by rw [hc]; rfl, ?_⟩
  intro s
  exact ⟨by simp [cancelClick, hideModal, appendMessage],
    by simp [overlayClick, hideModal, appendMessage]⟩

/-- C10 witness: confirm on a non-DEPLOYMENT pending action. -/
theorem confirm_without_pending_witness :
    confirmClick nonDeployState = hideModal nonDeployState ∧
    (confirmClick nonDeployState).chatMessages = nonDeployState.chatMessages ∧
    (confirmClick nonDeployState).actionToConfirm = none ∧
    (confirmClick nonDeployState).modalHidden = true ∧
    (confirmClick nonDeployState).modalOverlayHidden = true ∧
    (∀ s : AppState,
      (cancelClick s).chatMessages =
        s.chatMessages ++ [⟨"❌ Deployment action was cancelled by the user.", .model⟩] ∧
      (overlayClick s).chatMessages =
        s.chatMessages ++ [⟨"❌ Deployment action was cancelled by the user.", .model⟩]) :=
  confirm_without_pending nonDeployState (fun a ha => by
    have h2 : a = ⟨"OTHER", "pkg", "node"⟩ := (Option.some.inj ha).symm
    rw [h2]
    decide)

end NuN
